import Mathlib

/-!
Shallow embedding of `assignment.py` (offensive-comment analyzer) and
verification of its specification claims.

Modelling conventions:
* Python values appearing in the `comment_text` column are modelled by `PyVal`
  (strings, ints, booleans, `None`); `pyStr` is the Python `str()` coercion.
* The external `better_profanity` matcher and the remote Gemini model are
  external collaborators: the matcher is modelled from the spec contract
  (case-insensitive substring containment of lexicon tokens); the remote model
  and the Python `eval` builtin are oracles passed as function parameters, so
  theorems quantify over every possible remote/eval behaviour.
* Exceptions are modelled by explicit outcome constructors (`raise`); a Lean
  function being total models "the Python function returns without raising".
* pandas frames are modelled positionally: both `df` (from `read_csv` /
  `read_json`) and `pd.DataFrame(results)` carry the default RangeIndex
  `0..n-1`, so `pd.concat(..., axis=1)` is a positional zip.
-/

namespace CommentAnalyzer

/-- A Python scalar value as it may appear in an input cell or inside the
dict produced by `eval` of the model response. -/
inductive PyVal where
  | pstr (s : String)
  | pint (n : Int)
  | pbool (b : Bool)
  | pnone
deriving DecidableEq, Repr

/-- The Python `repr` rendering of the scalar values of the model (used by
`str` on non-string values; strings are rendered without quotes by `str`). -/
def pyRepr : PyVal → String
  | .pstr s => "\x27" ++ s ++ "\x27"
  | .pint n => toString n
  | .pbool true => "True"
  | .pbool false => "False"
  | .pnone => "None"

/-- The Python `str()` coercion, as applied by `str(x)` in the pre-filter
lambda (source line 36). -/
def pyStr : PyVal → String
  | .pstr s => s
  | v => pyRepr v

/-- `startsWithL needle hay`: the char list `needle` is a prefix of `hay`. -/
def startsWithL : List Char → List Char → Bool
  | [], _ => true
  | _ :: _, [] => false
  | a :: as, b :: bs => a == b && startsWithL as bs

/-- `occursIn needle hay`: the char list `needle` occurs contiguously in
`hay` (the Python `in` operator on strings). -/
def occursIn (needle : List Char) : List Char → Bool
  | [] => startsWithL needle []
  | b :: bs => startsWithL needle (b :: bs) || occursIn needle bs

/-- Lower-casing of a string, character by character (the Python
`str.lower()` method on the ASCII range). -/
def lowerChars (s : String) : List Char :=
  s.data.map Char.toLower

/-- Modelled from the spec: the external `better_profanity` check called by
`apply_profanity_filter` (source line 36). Per the spec contract for the
Lexical Pre-Filter it returns whether the string contains any token of the
loaded profanity lexicon, matching case-insensitively. -/
def containsProfanity (lexicon : List String) (s : String) : Bool :=
  lexicon.any (fun w => occursIn (lowerChars w) (lowerChars s))

/-- The Python `str.strip()` method: drop leading and trailing whitespace. -/
def pyStrip (s : String) : String :=
  ⟨((s.data.dropWhile Char.isWhitespace).reverse.dropWhile Char.isWhitespace).reverse⟩

/-- A well-typed Classification Result row, as the pipeline and spec expect
it: `is_offensive` boolean, `offense_type` string or null, `explanation`
string. -/
structure ClassResult where
  is_offensive : Bool
  offense_type : Option String
  explanation : String
deriving DecidableEq, Repr

/-- The default result assigned when the pre-filter found nothing
(source line 65). -/
def defaultNoProf : ClassResult :=
  { is_offensive := false, offense_type := none, explanation := "No profanity detected" }

/-- The fallback result returned by `analyze_comment` when the remote call or
the `eval` of its response raises (source line 56). -/
def geminiFail : ClassResult :=
  { is_offensive := false, offense_type := none, explanation := "Gemini analysis failed" }

/-- The value obtained by `eval` of the model response text: either a Python
dict with scalar values, or any other Python value (`eval` is a general
evaluator and returns whatever the expression denotes). -/
inductive EvalVal where
  | dict (entries : List (String × PyVal))
  | scalar (v : PyVal)
deriving DecidableEq, Repr

/-- The dict literal `analyze_comment` returns from its `except` branch
(source line 56). -/
def geminiFailVal : EvalVal :=
  .dict [("is_offensive", .pbool false), ("offense_type", .pnone),
         ("explanation", .pstr "Gemini analysis failed")]

/-- Outcome of `model.generate_content(prompt)` (source line 51): the remote
call either raises (network error, timeout, invalid key, ...) or returns a
response whose `.text` is a string. -/
inductive RemoteOutcome where
  | raise
  | respond (text : String)
deriving DecidableEq, Repr

/-- Outcome of Python `eval` on a string: it either raises (e.g. the text is
not a well-formed Python expression) or evaluates to some value. -/
inductive EvalOutcome where
  | raise
  | value (v : EvalVal)
deriving DecidableEq, Repr

/-- `analyze_comment` (source lines 40-56): call the remote model on the
prompt built from the comment, `eval(response.text.strip())`, and return the
resulting value unvalidated; any exception from either step is caught and
converted to the fallback dict. `remote` maps the comment to the outcome of
`generate_content`; `evalFn` is the behaviour of Python `eval`. Totality of
this function models the `except Exception` clause: no exception escapes. -/
def analyze_comment (remote : String → RemoteOutcome) (evalFn : String → EvalOutcome)
    (comment : String) : EvalVal :=
  match remote comment with
  | .raise => geminiFailVal
  | .respond t =>
    match evalFn (pyStrip t) with
    | .raise => geminiFailVal
    | .value v => v

/-- Schema validation as the spec mandates it for the adapter: a single
object with exactly the three fields `is_offensive` (boolean), `offense_type`
(string or null), `explanation` (string). -/
def isWellFormedResult : EvalVal → Bool
  | .dict [("is_offensive", .pbool _), ("offense_type", ot), ("explanation", .pstr _)] =>
    match ot with
    | .pstr _ => true
    | .pnone => true
    | _ => false
  | _ => false

/-- The input table as loaded: its column names and the `comment_text`
column values, in row order. -/
structure InputFrame where
  cols : List String
  comments : List PyVal
deriving DecidableEq, Repr

/-- `strEndsWith s p`: the string `s` ends with `p` (the Python
`str.endswith` method, as used to dispatch on the file extension). -/
def strEndsWith (s p : String) : Bool :=
  startsWithL p.data.reverse s.data.reverse

/-- `load_file` (source lines 14-31): report and return `None` when the path
does not exist or the extension is neither `.csv` nor `.json`; otherwise the
parse outcome (parse exceptions are caught and reported as `None` too).
`fsExists` is the oracle for `os.path.exists`, `parsed` the outcome of
`pd.read_csv` / `pd.read_json`. `Except.error` carries the printed message
and models returning `None`. -/
def load_file (fsExists : Bool) (parsed : Except String InputFrame) (path : String) :
    Except String InputFrame :=
  if fsExists then
    if strEndsWith path ".csv" then parsed
    else if strEndsWith path ".json" then parsed
    else .error " Unsupported file type."
  else .error " File not found."

/-- The frame after `apply_profanity_filter`: original columns plus the
appended `pre_filtered` column; each row keeps its comment value paired with
its annotation. -/
structure FilteredFrame where
  cols : List String
  rows : List (PyVal × Bool)
deriving DecidableEq, Repr

/-- `apply_profanity_filter` (source lines 34-37): annotate every row with
`profanity.contains_profanity(str(x))` on its `comment_text` value, adding
the `pre_filtered` column. -/
def apply_profanity_filter (lexicon : List String) (f : InputFrame) : FilteredFrame :=
  { cols := f.cols ++ ["pre_filtered"]
  , rows := f.comments.map (fun v => (v, containsProfanity lexicon (pyStr v))) }

/-- The per-row loop of `process_comments` (source lines 61-66): for each row
in order, call the adapter when `pre_filtered` is true, else take the fixed
default. Returns the results list and the list of comment values sent to the
adapter, both in row order. The adapter parameter abstracts
`analyze_comment` together with its remote/eval oracles. -/
def classifyRows (adapter : PyVal → ClassResult) :
    List (PyVal × Bool) → List ClassResult × List PyVal
  | [] => ([], [])
  | (c, p) :: rest =>
    if p then
      (adapter c :: (classifyRows adapter rest).1, c :: (classifyRows adapter rest).2)
    else
      (defaultNoProf :: (classifyRows adapter rest).1, (classifyRows adapter rest).2)

/-- One row of the Analyzed Table: the comment value, its pre-filter
annotation, and its Classification Result. -/
structure ARow where
  comment_text : PyVal
  pre_filtered : Bool
  result : ClassResult
deriving DecidableEq, Repr

/-- The Analyzed Table: column names and rows. -/
structure AnalyzedFrame where
  cols : List String
  rows : List ARow
deriving DecidableEq, Repr

/-- `process_comments` (source lines 59-68): run the per-row loop, build
`pd.DataFrame(results)` and `pd.concat([df, result_df], axis=1)`. Both frames
carry the default RangeIndex, so the concat is the positional zip of the
input rows with the results. Also returns the adapter call log. -/
def process_comments (adapter : PyVal → ClassResult) (f : FilteredFrame) :
    AnalyzedFrame × List PyVal :=
  ({ cols := f.cols ++ ["is_offensive", "offense_type", "explanation"]
   , rows := (f.rows.zip (classifyRows adapter f.rows).1).map
       (fun rc => ⟨rc.1.1, rc.1.2, rc.2⟩) },
   (classifyRows adapter f.rows).2)

/-- `pandas.Series.value_counts` on the `offense_type` column: null values
are dropped (pandas `dropna=True` default), then each distinct value is
paired with its multiplicity. The display order (descending by count) is
abstracted away; the claims are about the key set and the counts. -/
def value_counts (vs : List (Option String)) : List (String × Nat) :=
  let present := vs.filterMap id
  present.dedup.map (fun s => (s, present.count s))

/-- What `report_and_save` produced and left behind: the path and full table
passed to `to_csv`, the offensive subset, the printed breakdown, and the
table as it stands after the call. -/
structure ReportOut where
  savedPath : String
  savedCsv : AnalyzedFrame
  offensive : AnalyzedFrame
  breakdown : List (String × Nat)
  tableAfter : AnalyzedFrame
deriving DecidableEq, Repr

/-- `report_and_save` (source lines 71-78): `df.to_csv` persists the full
table (it reads, never writes, `df`); `df[df["is_offensive"] == True]` is a
boolean-mask selection producing a new frame with the same columns; the
breakdown is `value_counts` of the `offense_type` column of the subset. No
statement in the body assigns into `df`, and every pandas operation used has
copy semantics, so the table after the call (`tableAfter`) is the argument
itself. -/
def report_and_save (t : AnalyzedFrame) (output : String) : ReportOut :=
  let offRows := t.rows.filter (fun r => r.result.is_offensive)
  { savedPath := output
  , savedCsv := t
  , offensive := { cols := t.cols, rows := offRows }
  , breakdown := value_counts (offRows.map (fun r => r.result.offense_type))
  , tableAfter := t }

/-- Column selection `frame[["username", "comment_text", ...]]`
(source line 113): pandas raises `KeyError` when any requested column is
missing from the frame; otherwise the projection succeeds. -/
def selectColumns (t : AnalyzedFrame) (names : List String) : Except String Unit :=
  if ∀ n ∈ names, n ∈ t.cols then .ok () else .error "KeyError"

/-- `GOOGLE_API_KEY = os.getenv("GOOGLE_API_KEY") or "YOUR_GEMINI_API_KEY"`
(source line 9): Python `or` takes the right operand when `getenv` returns
`None` or the empty string. -/
def GOOGLE_API_KEY (env : Option String) : String :=
  match env with
  | none => "YOUR_GEMINI_API_KEY"
  | some s => if s = "" then "YOUR_GEMINI_API_KEY" else s

/-- The parsed command-line arguments (source lines 95-99). -/
structure Args where
  file : String
  filterFlag : Bool
  chart : Option String
  output : String
deriving DecidableEq, Repr

/-- Observable outcome of one run of `main`. -/
structure RunResult where
  loadError : Option String
  processed : Nat
  adapterCalls : List PyVal
  report : Option ReportOut
  filterPrint : Option (Except String Unit)
deriving Repr

/-- `main` (source lines 94-116): load the file; on `None` return
immediately (the error was already printed, nothing is processed); otherwise
run the pre-filter, the pipeline, and `report_and_save`, and, when
`--filter` was given, print the offensive subset projected onto
username/comment_text/offense_type/explanation. Chart rendering reads only
the offensive subset and is not further modelled. -/
def main (fsExists : Bool) (parsed : Except String InputFrame) (lexicon : List String)
    (adapter : PyVal → ClassResult) (args : Args) : RunResult :=
  match load_file fsExists parsed args.file with
  | .error e =>
    { loadError := some e, processed := 0, adapterCalls := [], report := none,
      filterPrint := none }
  | .ok f =>
    let filtered := apply_profanity_filter lexicon f
    let analyzed := (process_comments adapter filtered).1
    let rep := report_and_save analyzed args.output
    { loadError := none
    , processed := analyzed.rows.length
    , adapterCalls := (process_comments adapter filtered).2
    , report := some rep
    , filterPrint :=
        if args.filterFlag then
          some (selectColumns rep.offensive
            ["username", "comment_text", "offense_type", "explanation"])
        else none }

/-! ### Helper lemmas about the per-row loop -/

theorem classifyRows_length (a : PyVal → ClassResult) (l : List (PyVal × Bool)) :
    (classifyRows a l).1.length = l.length := by
  induction l with
  | nil => rfl
  | cons cp rest ih =>
    obtain ⟨c, p⟩ := cp
    cases p <;> simp [classifyRows, ih]

theorem classifyRows_getElem (a : PyVal → ClassResult) (l : List (PyVal × Bool)) (i : Nat) :
    (classifyRows a l).1[i]? =
      (l[i]?).map (fun cp => if cp.2 then a cp.1 else defaultNoProf) := by
  induction l generalizing i with
  | nil => simp [classifyRows]
  | cons cp rest ih =>
    obtain ⟨c, p⟩ := cp
    cases i with
    | zero => cases p <;> simp [classifyRows]
    | succ n => cases p <;> simp [classifyRows, ih]

theorem classifyRows_calls (a : PyVal → ClassResult) (l : List (PyVal × Bool)) :
    (classifyRows a l).2 = (l.filter (fun cp => cp.2)).map (fun cp => cp.1) := by
  induction l with
  | nil => rfl
  | cons cp rest ih =>
    obtain ⟨c, p⟩ := cp
    cases p <;> simp [classifyRows, ih, List.filter]

theorem process_rows_getElem (a : PyVal → ClassResult) (f : FilteredFrame) (i : Nat) :
    (process_comments a f).1.rows[i]? =
      (f.rows[i]?).map
        (fun cp => ⟨cp.1, cp.2, if cp.2 then a cp.1 else defaultNoProf⟩) := by
  simp only [process_comments, List.getElem?_map, List.zip, List.getElem?_zipWith,
    classifyRows_getElem]
  cases f.rows[i]? <;> rfl

theorem process_rows_length (a : PyVal → ClassResult) (f : FilteredFrame) :
    (process_comments a f).1.rows.length = f.rows.length := by
  simp [process_comments, classifyRows_length]

/-! ### Claim theorems -/

/-- Claim C1, counterexample: at a concrete failing input (the remote call
raises on the comment "hello"), `analyze_comment` returns its fallback dict,
whose explanation field is the string "Gemini analysis failed" and not the
string "classifier unavailable" in angle brackets that the claim states, so
the claim as written is false. -/
theorem C1_counterexample :
    analyze_comment (fun _ => RemoteOutcome.raise) (fun _ => EvalOutcome.raise) "hello" =
        geminiFailVal ∧
      geminiFailVal ≠
        EvalVal.dict [("is_offensive", PyVal.pbool false), ("offense_type", PyVal.pnone),
          ("explanation", PyVal.pstr "<classifier unavailable>")] := by
  exact ⟨rfl, by decide⟩

/-- Claim C1 (amended): for every comment and every behaviour of the remote
model and of the eval step, whenever the remote call raises or the eval of
the (stripped) response text raises, `analyze_comment` returns exactly the
default result with `is_offensive` false, `offense_type` null and
explanation "Gemini analysis failed"; being a total function, it never
raises past its boundary. -/
theorem C1_adapter_fail_open (remote : String → RemoteOutcome)
    (evalFn : String → EvalOutcome) (comment : String)
    (h : remote comment = RemoteOutcome.raise ∨
      ∃ t, remote comment = RemoteOutcome.respond t ∧ evalFn (pyStrip t) = EvalOutcome.raise) :
    analyze_comment remote evalFn comment = geminiFailVal := by
  rcases h with h | ⟨t, h1, h2⟩
  · simp [analyze_comment, h]
  · simp [analyze_comment, h1, h2]

/-- Witness for C1 (amended) at the always-failing remote oracle and the
comment "hello". -/
theorem C1_adapter_fail_open_witness :
    analyze_comment (fun _ => RemoteOutcome.raise) (fun _ => EvalOutcome.raise) "hello" =
      geminiFailVal :=
  C1_adapter_fail_open (fun _ => RemoteOutcome.raise) (fun _ => EvalOutcome.raise) "hello"
    (Or.inl rfl)

/-- The behaviour of the Python eval builtin on the expression text "1+1",
recorded as an oracle: evaluating it returns the integer 2 (and any other
text is taken to raise). -/
def evalArith : String → EvalOutcome := fun t =>
  if t = "1+1" then EvalOutcome.value (EvalVal.scalar (PyVal.pint 2)) else EvalOutcome.raise

/-- Claim C2: the code contradicts the claim. `analyze_comment` hands the
response text to the general-purpose Python eval (source line 52) and
returns whatever value results, with no schema validation: for the model
response text "1+1" the adapter returns the integer 2, which is not a
well-formed three-field Classification Result. -/
theorem C2_eval_unvalidated :
    analyze_comment (fun _ => RemoteOutcome.respond "1+1") evalArith "some comment" =
        EvalVal.scalar (PyVal.pint 2) ∧
      isWellFormedResult (EvalVal.scalar (PyVal.pint 2)) = false := by
  refine ⟨?_, rfl⟩
  have h : pyStrip "1+1" = "1+1" := by decide
  simp [analyze_comment, evalArith, h]

/-- Claim C3: in the pipeline loop, the record at every index gets exactly
the fixed default when its `pre_filtered` annotation is false and exactly
the adapter result when it is true, and the adapter call log is exactly the
flagged comments in row order (one call per flagged record, none for the
others). -/
theorem C3_dispatch (adapter : PyVal → ClassResult) (f : FilteredFrame) (i : Nat) :
    ((process_comments adapter f).1.rows[i]?).map (fun r => r.result) =
        (f.rows[i]?).map (fun cp => if cp.2 then adapter cp.1 else defaultNoProf) ∧
      (process_comments adapter f).2 =
        (f.rows.filter (fun cp => cp.2)).map (fun cp => cp.1) := by
  constructor
  · rw [process_rows_getElem]
    cases f.rows[i]? <;> rfl
  · exact classifyRows_calls adapter f.rows

/-- Claim C4: for every input table, the Analyzed Table has exactly as many
rows as the input has comments, and the row at every index carries the
comment value of the input row at the same index (order preserved, no
drops, no duplicates); each row carries exactly one Classification Result
by construction of `ARow`. -/
theorem C4_table_shape (lexicon : List String) (adapter : PyVal → ClassResult)
    (f : InputFrame) (i : Nat) :
    (process_comments adapter (apply_profanity_filter lexicon f)).1.rows.length =
        f.comments.length ∧
      ((process_comments adapter (apply_profanity_filter lexicon f)).1.rows[i]?).map
          (fun r => r.comment_text) = f.comments[i]? := by
  constructor
  · rw [process_rows_length]
    simp [apply_profanity_filter]
  · rw [process_rows_getElem]
    simp only [apply_profanity_filter, List.getElem?_map]
    cases f.comments[i]? <;> rfl

/-- Claim C5: whenever the input path does not exist, or its extension is
neither `.csv` nor `.json`, the run reports the problem (`loadError` holds
the printed message) and `main` returns before any record is processed: no
record is classified, the adapter is never called, and no report is
produced. -/
theorem C5_config_abort (fsExists : Bool) (parsed : Except String InputFrame)
    (lexicon : List String) (adapter : PyVal → ClassResult) (args : Args)
    (h : fsExists = false ∨
      (strEndsWith args.file ".csv" = false ∧ strEndsWith args.file ".json" = false)) :
    (main fsExists parsed lexicon adapter args).loadError.isSome = true ∧
      (main fsExists parsed lexicon adapter args).processed = 0 ∧
      (main fsExists parsed lexicon adapter args).adapterCalls = [] ∧
      (main fsExists parsed lexicon adapter args).report = none := by
  rcases h with h | ⟨h1, h2⟩
  · subst h
    simp [main, load_file]
  · cases fsExists <;> simp [main, load_file, h1, h2]

/-- Witness for C5 at a nonexistent path. -/
theorem C5_config_abort_witness :
    (main false (Except.ok ⟨["comment_text"], []⟩) [] (fun _ => defaultNoProf)
        ⟨"data.csv", false, none, "out.csv"⟩).loadError.isSome = true ∧
      (main false (Except.ok ⟨["comment_text"], []⟩) [] (fun _ => defaultNoProf)
        ⟨"data.csv", false, none, "out.csv"⟩).processed = 0 ∧
      (main false (Except.ok ⟨["comment_text"], []⟩) [] (fun _ => defaultNoProf)
        ⟨"data.csv", false, none, "out.csv"⟩).adapterCalls = [] ∧
      (main false (Except.ok ⟨["comment_text"], []⟩) [] (fun _ => defaultNoProf)
        ⟨"data.csv", false, none, "out.csv"⟩).report = none :=
  C5_config_abort false (Except.ok ⟨["comment_text"], []⟩) [] (fun _ => defaultNoProf)
    ⟨"data.csv", false, none, "out.csv"⟩ (Or.inl rfl)

/-- Claim C6: the code contradicts the claim. With the API key absent from
the environment, line 9 silently substitutes the placeholder
"YOUR_GEMINI_API_KEY" and the run proceeds: on an input with one flagged
comment, `main` reports no configuration error, processes the record, makes
the (failing) remote call for it, and the record ends with the per-call
fallback result "Gemini analysis failed" — the absence is never surfaced
before processing. The adapter argument is instantiated with the constant
fallback result, which is what `analyze_comment` yields when every remote
call raises with an invalid key. -/
theorem C6_missing_key_not_config_error :
    GOOGLE_API_KEY none = "YOUR_GEMINI_API_KEY" ∧
      (main true (Except.ok ⟨["username", "comment_text"], [PyVal.pstr "you idiot"]⟩)
          ["idiot"] (fun _ => geminiFail)
          ⟨"comments.csv", false, none, "analyzed_comments.csv"⟩).loadError = none ∧
      (main true (Except.ok ⟨["username", "comment_text"], [PyVal.pstr "you idiot"]⟩)
          ["idiot"] (fun _ => geminiFail)
          ⟨"comments.csv", false, none, "analyzed_comments.csv"⟩).processed = 1 ∧
      (main true (Except.ok ⟨["username", "comment_text"], [PyVal.pstr "you idiot"]⟩)
          ["idiot"] (fun _ => geminiFail)
          ⟨"comments.csv", false, none, "analyzed_comments.csv"⟩).adapterCalls =
        [PyVal.pstr "you idiot"] ∧
      ((main true (Except.ok ⟨["username", "comment_text"], [PyVal.pstr "you idiot"]⟩)
          ["idiot"] (fun _ => geminiFail)
          ⟨"comments.csv", false, none, "analyzed_comments.csv"⟩).report.map
        (fun rep => rep.savedCsv.rows.map (fun row => row.result))) = some [geminiFail] := by
  refine ⟨rfl, ?_, ?_, ?_, ?_⟩ <;> decide

/-- Claim C7, counterexample: on the Analyzed Table with one offensive row
whose `offense_type` is null, the offensive subset has one row, but
`value_counts` drops the null (pandas default `dropna`), so the aggregate
counts sum to 0, not to the size of the subset — the claim as written is
false. -/
theorem C7_counterexample :
    (((report_and_save
          ⟨["comment_text", "pre_filtered", "is_offensive", "offense_type", "explanation"],
            [⟨PyVal.pstr "x", true, ⟨true, none, "flagged"⟩⟩]⟩
          "out.csv").breakdown.map Prod.snd).sum = 0) ∧
      (report_and_save
          ⟨["comment_text", "pre_filtered", "is_offensive", "offense_type", "explanation"],
            [⟨PyVal.pstr "x", true, ⟨true, none, "flagged"⟩⟩]⟩
          "out.csv").offensive.rows.length = 1 := by
  exact ⟨rfl, rfl⟩

/-- Claim C7 (amended): for every Analyzed Table, the Offense Aggregate
counts sum to the number of rows of the offensive subset that carry a
non-null `offense_type` (null values are dropped by `value_counts`), and a
string is a key of the aggregate exactly when it occurs as an
`offense_type` value in the offensive subset. -/
theorem C7_aggregate (t : AnalyzedFrame) (output : String) :
    (((report_and_save t output).breakdown.map Prod.snd).sum =
        ((report_and_save t output).offensive.rows.filterMap
          (fun r => r.result.offense_type)).length) ∧
      ∀ s : String,
        s ∈ (report_and_save t output).breakdown.map Prod.fst ↔
          some s ∈ (report_and_save t output).offensive.rows.map
            (fun r => r.result.offense_type) := by
  constructor
  · simp only [report_and_save, value_counts, List.map_map, Function.comp]
    rw [List.filterMap_map]
    exact List.sum_map_count_dedup_eq_length _
  · intro s
    simp only [report_and_save, value_counts, List.map_map, Function.comp]
    rw [List.filterMap_map]
    simp [List.mem_dedup, List.mem_filterMap]

/-- Claim C8: for every value in the `comment_text` column — strings, empty
strings, integers, booleans or `None` — the pre-filter annotates the row
with the boolean obtained by first coercing the value to its textual
representation (`str(x)`) and then testing case-insensitive containment of
a lexicon token; totality of `apply_profanity_filter` models that it never
raises. -/
theorem C8_prefilter_total (lexicon : List String) (f : InputFrame) (i : Nat) :
    ((apply_profanity_filter lexicon f).rows[i]? =
        (f.comments[i]?).map (fun v => (v, containsProfanity lexicon (pyStr v)))) ∧
      ∀ v : PyVal,
        containsProfanity lexicon (pyStr v) = true ↔
          ∃ w ∈ lexicon, occursIn (lowerChars w) (lowerChars (pyStr v)) = true := by
  constructor
  · simp [apply_profanity_filter]
  · intro v
    simp [containsProfanity, List.any_eq_true]

/-- Claim C9: `report_and_save` persists the full table it was given and
computes the offensive subset and the aggregate from it, and the table
after the call is the very table passed in — no statement of the body
mutates it (each pandas operation used has copy semantics, as recorded in
the definition of `report_and_save`). -/
theorem C9_no_mutation (t : AnalyzedFrame) (output : String) :
    (report_and_save t output).tableAfter = t ∧
      (report_and_save t output).savedCsv = t ∧
      (report_and_save t output).offensive.rows =
        t.rows.filter (fun r => r.result.is_offensive) := by
  exact ⟨rfl, rfl, rfl⟩

/-- Claim C10: when `--filter` is given and the input table has no
`username` column, the offensive-listing step fails with a KeyError
(pandas column selection on a missing label) instead of printing, because
the listing unconditionally selects the `username` column. -/
theorem C10_filter_missing_username (f : InputFrame) (lexicon : List String)
    (adapter : PyVal → ClassResult) (args : Args)
    (h1 : "username" ∉ f.cols) (h2 : args.filterFlag = true)
    (h3 : strEndsWith args.file ".csv" = true) :
    (main true (Except.ok f) lexicon adapter args).filterPrint =
      some (Except.error "KeyError") := by
  have hcols : ¬ ∀ n ∈ ["username", "comment_text", "offense_type", "explanation"],
      n ∈ (f.cols ++ ["pre_filtered"]) ++ ["is_offensive", "offense_type", "explanation"] := by
    intro hall
    have hu := hall "username" (by simp)
    simp only [List.mem_append, List.mem_cons, List.mem_singleton] at hu
    rcases hu with (hu | hu) | hu
    · exact h1 hu
    · simp at hu
    · simp at hu
  simp only [main, load_file, h3, if_true, h2]
  simp only [process_comments, apply_profanity_filter, report_and_save, selectColumns]
  rw [if_neg hcols]

/-- Witness for C10 at a one-column input table lacking `username`, with the
`--filter` flag set. -/
theorem C10_filter_missing_username_witness :
    (main true (Except.ok ⟨["comment_text"], [PyVal.pstr "hello"]⟩) []
        (fun _ => defaultNoProf) ⟨"in.csv", true, none, "out.csv"⟩).filterPrint =
      some (Except.error "KeyError") :=
  C10_filter_missing_username ⟨["comment_text"], [PyVal.pstr "hello"]⟩ []
    (fun _ => defaultNoProf) ⟨"in.csv", true, none, "out.csv"⟩ (by decide) rfl (by decide)

end CommentAnalyzer
